import Mathlib

/-!
Verification of `src/frontend/src/components/valuecell/renderer/model-trade-renderer.tsx`.

The component takes a `content` string prop, parses it with the fault-tolerant
`best-effort-json-parser` library, destructures `{ title, data }` from the result,
parses `data` a second time, and renders a heading, a multi-line chart (height
"90%") and a fixed two-line disclaimer block.  The component is exported wrapped
in `memo`.

The parser library and the props type live outside the repository excerpt, so
they are modelled from the specification (see the doc comments below); the
component itself is embedded directly from the source.
-/

/-- JavaScript values as they appear in this component: the possible results of
the JSON parser, plus `undefined` (absent field / parse of nothing).  Numbers are
modelled as integers: every numeral in the component's data model is integral,
and floating point is outside this embedding. -/
inductive JsValue where
  | undefined : JsValue
  | null : JsValue
  | bool (b : Bool) : JsValue
  | num (n : Int) : JsValue
  | str (s : String) : JsValue
  | arr (elems : List JsValue) : JsValue
  | obj (fields : List (String × JsValue)) : JsValue
deriving Repr

/-- The opening-brace character, written by code so that no literal brace
appears in the file's strings. -/
def openBrace : Char := Char.ofNat 123

/-- The closing-brace character. -/
def closeBrace : Char := Char.ofNat 125

/-- JSON whitespace. -/
def isJsonWs (c : Char) : Bool :=
  c = ' ' || c = '\n' || c = '\t' || c = '\r'

/-- Drop leading JSON whitespace. -/
def skipWs : List Char → List Char
  | [] => []
  | c :: cs => if isJsonWs c then skipWs cs else c :: cs

/-- Value of a hexadecimal digit, if any. -/
def hexVal (c : Char) : Option Nat :=
  if '0' ≤ c ∧ c ≤ '9' then some (c.toNat - '0'.toNat)
  else if 'a' ≤ c ∧ c ≤ 'f' then some (c.toNat - 'a'.toNat + 10)
  else if 'A' ≤ c ∧ c ≤ 'F' then some (c.toNat - 'A'.toNat + 10)
  else none

/-- Body of a JSON string literal, after the opening quote.  Returns the decoded
characters and the input remaining after the closing quote.  Best-effort: if the
input ends before the closing quote, the characters read so far are returned
(mid-stream tolerance). -/
def parseStringBody : List Char → List Char × List Char
  | [] => ([], [])
  | '"' :: rest => ([], rest)
  | '\\' :: 'u' :: a :: b :: c :: d :: rest =>
    match hexVal a, hexVal b, hexVal c, hexVal d with
    | some x, some y, some z, some w =>
      let n := ((x * 16 + y) * 16 + z) * 16 + w
      let p := parseStringBody rest
      (Char.ofNat n :: p.1, p.2)
    | _, _, _, _ =>
      let p := parseStringBody rest
      ('u' :: p.1, p.2)
  | '\\' :: e :: rest =>
    let ch :=
      if e = 'n' then '\n'
      else if e = 't' then '\t'
      else if e = 'r' then '\r'
      else if e = 'b' then Char.ofNat 8
      else if e = 'f' then Char.ofNat 12
      else e
    let p := parseStringBody rest
    (ch :: p.1, p.2)
  | ['\\'] => ([], [])
  | c :: rest =>
    let p := parseStringBody rest
    (c :: p.1, p.2)

/-- Read a run of decimal digits, accumulating their value. -/
def parseDigits (cs : List Char) (acc : Nat) : Nat × List Char :=
  match cs with
  | c :: rest =>
    if c.isDigit then parseDigits rest (acc * 10 + (c.toNat - '0'.toNat))
    else (acc, cs)
  | [] => (acc, [])

mutual

/-- Modelled from the spec: the core of the external `best-effort-json-parser`
library's `parse` (the library is a dependency, not part of the repository
excerpt).  A fault-tolerant JSON parser: it never raises, and on incomplete or
malformed input it returns a best-guess value built from the readable prefix
(`undefined` when nothing is readable).  `fuel` bounds recursion; `parse` below
supplies enough fuel for any input. -/
def parseValueAux : Nat → List Char → JsValue × List Char
  | 0, cs => (.undefined, cs)
  | fuel + 1, cs =>
    match skipWs cs with
    | [] => (.undefined, [])
    | 't' :: 'r' :: 'u' :: 'e' :: rest => (.bool true, rest)
    | 'f' :: 'a' :: 'l' :: 's' :: 'e' :: rest => (.bool false, rest)
    | 'n' :: 'u' :: 'l' :: 'l' :: rest => (.null, rest)
    | '"' :: rest =>
      let p := parseStringBody rest
      (.str (String.mk p.1), p.2)
    | '[' :: rest =>
      let p := parseElemsAux fuel rest []
      (.arr p.1, p.2)
    | '-' :: c :: rest =>
      if c.isDigit then
        let p := parseDigits (c :: rest) 0
        (.num (-(p.1 : Int)), p.2)
      else (.undefined, rest)
    | c :: rest =>
      if c = openBrace then
        let p := parseFieldsAux fuel rest []
        (.obj p.1, p.2)
      else if c.isDigit then
        let p := parseDigits (c :: rest) 0
        (.num (p.1 : Int), p.2)
      else (.undefined, rest)

/-- Members of a JSON object, after the opening brace.  Best-effort: a truncated
object yields the fields read so far; a key without a value yields the field
with value `undefined`; unexpected characters are skipped. -/
def parseFieldsAux : Nat → List Char → List (String × JsValue) →
    List (String × JsValue) × List Char
  | 0, cs, acc => (acc.reverse, cs)
  | fuel + 1, cs, acc =>
    match skipWs cs with
    | [] => (acc.reverse, [])
    | ',' :: rest => parseFieldsAux fuel rest acc
    | '"' :: rest =>
      let pk := parseStringBody rest
      let key := String.mk pk.1
      match skipWs pk.2 with
      | ':' :: r2 =>
        let pv := parseValueAux fuel r2
        parseFieldsAux fuel pv.2 ((key, pv.1) :: acc)
      | r2 => parseFieldsAux fuel r2 ((key, .undefined) :: acc)
    | c :: rest =>
      if c = closeBrace then (acc.reverse, rest)
      else parseFieldsAux fuel rest acc

/-- Elements of a JSON array, after the opening bracket.  Best-effort: a
truncated array yields the elements read so far. -/
def parseElemsAux : Nat → List Char → List JsValue → List JsValue × List Char
  | 0, cs, acc => (acc.reverse, cs)
  | fuel + 1, cs, acc =>
    match skipWs cs with
    | [] => (acc.reverse, [])
    | ']' :: rest => (acc.reverse, rest)
    | ',' :: rest => parseElemsAux fuel rest acc
    | cs' =>
      let p := parseValueAux fuel cs'
      parseElemsAux fuel p.2 (p.1 :: acc)

end

/-- Modelled from the spec: the external `best-effort-json-parser` library's
`parse`, applied to a string.  Never raises; returns a best-effort value for
incomplete or malformed input. -/
def parse (s : String) : JsValue :=
  (parseValueAux (2 * s.length + 8) s.data).1

/-- Last binding of `key` in an object's field list (JavaScript object
semantics: a later duplicate key overwrites an earlier one). -/
def lookupField : List (String × JsValue) → String → Option JsValue
  | [], _ => none
  | (k, v) :: rest, key =>
    match lookupField rest key with
    | some w => some w
    | none => if k = key then some v else none

/-- JavaScript property access `v.key` as used on the parse result: a field of
an object, `undefined` for a missing field or on any non-object value (property
access named by a non-index key on a primitive or array yields `undefined`). -/
def getField (v : JsValue) (key : String) : JsValue :=
  match v with
  | .obj fields => (lookupField fields key).getD .undefined
  | _ => .undefined

/-- The field list with every binding of `key` removed; used to state that two
envelopes agree everywhere outside one field. -/
def eraseField (fields : List (String × JsValue)) (key : String) :
    List (String × JsValue) :=
  fields.filter (fun p => p.1 != key)

/-- Modelled from the spec: `ModelTradeRendererProps` from `@/types/renderer`
(not in the repository excerpt): the `content` string plus the optional
`height` sizing hint (a number in the source's usage example). -/
structure ModelTradeRendererProps where
  content : String
  height : Option Int
deriving Repr

/-- The only abnormal outcome the component can produce: the `TypeError` thrown
by destructuring `\x7b title, data \x7d` from a `null`/`undefined` parse
result. -/
inductive RenderError where
  | typeError : RenderError
deriving Repr, DecidableEq

/-- The props handed to the `MultiLineChart` collaborator. -/
structure ChartProps where
  data : JsValue
  height : String
deriving Repr

/-- The rendered tree, reduced to its content-bearing parts: the heading text,
the chart collaborator's props, and the disclaimer block's paragraphs. -/
structure RenderOutput where
  heading : JsValue
  chart : ChartProps
  disclaimerHead : String
  disclaimerLines : List String
deriving Repr

/-- JavaScript destructuring `const \x7b title, data \x7d = parse(content)`: it
throws a `TypeError` when the scrutinee is `null` or `undefined`, and otherwise
reads the two properties (a missing property reads as `undefined`). -/
def destructureEnv : JsValue → Except RenderError (JsValue × JsValue)
  | .null => .error .typeError
  | .undefined => .error .typeError
  | v => .ok (getField v "title", getField v "data")

/-- Modelled from the spec: the second `parse(data)` call, where `data` is the
value read from the envelope rather than necessarily a string.  The spec fixes
two cases: a string is parsed fault-tolerantly, and an absent (`undefined`)
`data` must not raise and must yield an empty/`undefined` dataset.  The spec
leaves the remaining cases open; they pass through unchanged, and no claim
depends on them. -/
def parseDyn : JsValue → JsValue
  | .str s => parse s
  | v => v

/-- The chart height literal passed to `MultiLineChart`. -/
def chartHeight : String := "90%"

/-- First fixed disclaimer line (JSX text, whitespace collapsed). -/
def disclaimerLine1 : String :=
  "1. The AI tools are for simulation only and do not provide investment advice"

/-- Second fixed disclaimer line (JSX text, whitespace collapsed, copied from
the source including its mis-encoded dash). -/
def disclaimerLine2 : String :=
  "2. The tools may contain errors or delays and cannot account for all market factors. You are solely responsible for your trading decisions. Use caution â€” markets involve risk."

/-- The disclaimer block's lead paragraph. -/
def disclaimerHeadText : String := "Disclaimer & Tool Reminder:"

/-- The component body, embedded from the source: parse `content`, destructure
`\x7b title, data \x7d` (which may throw a `TypeError`), parse `data` a second
time, and produce the tree with the heading, the chart (the re-parsed dataset
and height "90%") and the fixed disclaimer block.  The source destructures only
`content` from its props; the `height` prop is never read. -/
def ModelTradeRenderer (props : ModelTradeRendererProps) :
    Except RenderError RenderOutput :=
  match destructureEnv (parse props.content) with
  | .error e => .error e
  | .ok td =>
    .ok { heading := td.1
          chart := { data := parseDyn td.2, height := chartHeight }
          disclaimerHead := disclaimerHeadText
          disclaimerLines := [disclaimerLine1, disclaimerLine2] }

/-- `memo` from React: memoization by shallow prop comparison.  It only skips
re-renders; as a function of props it is the wrapped component. -/
def memoWrap {α β : Type} (f : α → β) : α → β := fun props => f props

/-- The module's default export, `memo(ModelTradeRenderer)`. -/
def modelTradeRendererExport :
    ModelTradeRendererProps → Except RenderError RenderOutput :=
  memoWrap ModelTradeRenderer

/-- Destructuring succeeds on every non-nullish value and reads the `title` and
`data` properties. -/
theorem destructureEnv_not_nullish (v : JsValue) (h1 : v ≠ JsValue.null)
    (h2 : v ≠ JsValue.undefined) :
    destructureEnv v = .ok (getField v "title", getField v "data") := by
  cases v <;> first | rfl | exact absurd rfl h1 | exact absurd rfl h2

/-- Computation rule of the component on a non-nullish parse result: the heading
is the `title` property, the chart gets the re-parsed `data` property and the
constant height, and the disclaimer block is fixed. -/
theorem ModelTradeRenderer_ok (c : String) (hgt : Option Int)
    (h1 : parse c ≠ JsValue.null) (h2 : parse c ≠ JsValue.undefined) :
    ModelTradeRenderer ⟨c, hgt⟩ = .ok
      { heading := getField (parse c) "title"
        chart := { data := parseDyn (getField (parse c) "data"),
                   height := chartHeight }
        disclaimerHead := disclaimerHeadText
        disclaimerLines := [disclaimerLine1, disclaimerLine2] } := by
  unfold ModelTradeRenderer
  rw [destructureEnv_not_nullish _ h1 h2]

/-- Removing the bindings of one key leaves the lookup of every other key
unchanged. -/
theorem lookupField_eraseField (fields : List (String × JsValue))
    (key banned : String) (h : key ≠ banned) :
    lookupField (eraseField fields banned) key = lookupField fields key := by
  induction fields with
  | nil => rfl
  | cons p rest ih =>
    obtain ⟨k, v⟩ := p
    by_cases hk : k = banned
    · subst hk
      simp only [eraseField, List.filter, bne_self_eq_false] at *
      rw [ih]
      cases hl : lookupField rest key with
      | some w => simp [lookupField, hl]
      | none =>
        simp only [lookupField, hl]
        rw [if_neg (fun hkey => h hkey.symm)]
    · have hb : (k != banned) = true := bne_iff_ne.mpr hk
      simp only [eraseField, List.filter, hb] at *
      simp only [lookupField, ih]

/-- Claim C1: for a content string whose envelope parses to an object with a
`title` field and a string-valued `data` field, the component mounts, displays
the title value as the heading, and passes to the chart widget the result of
parsing the inner data string a second time. -/
theorem render_heading_and_double_parsed_dataset (c : String) (hgt : Option Int)
    (env : List (String × JsValue)) (t : JsValue) (d : String)
    (hp : parse c = .obj env)
    (ht : lookupField env "title" = some t)
    (hd : lookupField env "data" = some (.str d)) :
    ∃ o : RenderOutput, ModelTradeRenderer ⟨c, hgt⟩ = .ok o ∧
      o.heading = t ∧ o.chart.data = parse d := by
  have h1 : parse c ≠ JsValue.null := by
    rw [hp]; exact fun h => JsValue.noConfusion h
  have h2 : parse c ≠ JsValue.undefined := by
    rw [hp]; exact fun h => JsValue.noConfusion h
  refine ⟨_, ModelTradeRenderer_ok c hgt h1 h2, ?_, ?_⟩
  · simp [hp, getField, ht]
  · simp [hp, getField, hd, parseDyn]

/-- Witness for C1: the specification's own example envelope. -/
theorem render_heading_and_double_parsed_dataset_witness :
    parse "\x7b\"title\": \"T\", \"data\": \"[[\\\"Time\\\",\\\"A\\\"],[\\\"2024-01\\\",1]]\"\x7d" =
      .obj [("title", JsValue.str "T"),
        ("data", JsValue.str "[[\"Time\",\"A\"],[\"2024-01\",1]]")] ∧
    lookupField [("title", JsValue.str "T"),
        ("data", JsValue.str "[[\"Time\",\"A\"],[\"2024-01\",1]]")] "title" =
      some (JsValue.str "T") ∧
    lookupField [("title", JsValue.str "T"),
        ("data", JsValue.str "[[\"Time\",\"A\"],[\"2024-01\",1]]")] "data" =
      some (JsValue.str "[[\"Time\",\"A\"],[\"2024-01\",1]]") ∧
    ∃ o : RenderOutput,
      ModelTradeRenderer
          ⟨"\x7b\"title\": \"T\", \"data\": \"[[\\\"Time\\\",\\\"A\\\"],[\\\"2024-01\\\",1]]\"\x7d",
           none⟩ = .ok o ∧
        o.heading = JsValue.str "T" ∧
        o.chart.data = parse "[[\"Time\",\"A\"],[\"2024-01\",1]]" :=
  ⟨rfl, rfl, rfl,
    render_heading_and_double_parsed_dataset
      "\x7b\"title\": \"T\", \"data\": \"[[\\\"Time\\\",\\\"A\\\"],[\\\"2024-01\\\",1]]\"\x7d"
      none
      [("title", JsValue.str "T"),
        ("data", JsValue.str "[[\"Time\",\"A\"],[\"2024-01\",1]]")]
      (JsValue.str "T") "[[\"Time\",\"A\"],[\"2024-01\",1]]" rfl rfl rfl⟩

/-- Counterexample to C2 as stated: the content string "null" parses (without
raising) to the JSON value `null`, and destructuring the envelope then throws a
`TypeError`, so the component does not mount for every string. -/
theorem render_throws_on_null_content :
    ModelTradeRenderer ⟨"null", none⟩ = .error RenderError.typeError := rfl

/-- Claim C2 (amended): for every content string whose best-effort parse yields
a non-nullish value — in particular every truncated or malformed string the
parser completes to an object — rendering does not throw and the component
mounts, with the heading and chart dataset possibly empty or undefined. -/
theorem render_mounts_when_parse_not_nullish (c : String) (hgt : Option Int)
    (h1 : parse c ≠ JsValue.null) (h2 : parse c ≠ JsValue.undefined) :
    ∃ o : RenderOutput, ModelTradeRenderer ⟨c, hgt⟩ = .ok o :=
  ⟨_, ModelTradeRenderer_ok c hgt h1 h2⟩

/-- Witness for C2 (amended): a truncated envelope, cut mid-stream inside the
title string, still mounts. -/
theorem render_mounts_when_parse_not_nullish_witness :
    parse "\x7b\"title\": \"T" ≠ JsValue.null ∧
    parse "\x7b\"title\": \"T" ≠ JsValue.undefined ∧
    ∃ o : RenderOutput, ModelTradeRenderer ⟨"\x7b\"title\": \"T", none⟩ = .ok o := by
  have h1 : parse "\x7b\"title\": \"T" ≠ JsValue.null := by
    rw [show parse "\x7b\"title\": \"T" = .obj [("title", JsValue.str "T")] from rfl]
    exact fun h => JsValue.noConfusion h
  have h2 : parse "\x7b\"title\": \"T" ≠ JsValue.undefined := by
    rw [show parse "\x7b\"title\": \"T" = .obj [("title", JsValue.str "T")] from rfl]
    exact fun h => JsValue.noConfusion h
  exact ⟨h1, h2, render_mounts_when_parse_not_nullish "\x7b\"title\": \"T" none h1 h2⟩

/-- Claim C3: the content string "null" best-effort-parses to `null`, and
destructuring the parsed envelope throws a `TypeError`, so the component does
not mount on that input. -/
theorem null_content_destructure_typeerror :
    parse "null" = JsValue.null ∧
    ModelTradeRenderer ⟨"null", none⟩ = .error RenderError.typeError :=
  ⟨rfl, rfl⟩

/-- Claim C4: whenever the component mounts, the disclaimer region it outputs is
the fixed constant block — its lead paragraph and its two informational lines —
independent of the content prop. -/
theorem disclaimer_block_constant (p : ModelTradeRendererProps)
    (o : RenderOutput) (h : ModelTradeRenderer p = .ok o) :
    o.disclaimerHead = disclaimerHeadText ∧
      o.disclaimerLines = [disclaimerLine1, disclaimerLine2] := by
  unfold ModelTradeRenderer at h
  split at h
  · exact Except.noConfusion h
  · injection h with h'
    subst h'
    exact ⟨rfl, rfl⟩

/-- Witness for C4: the empty-object content. -/
theorem disclaimer_block_constant_witness :
    ModelTradeRenderer ⟨"\x7b\x7d", none⟩ = .ok
      { heading := JsValue.undefined,
        chart := { data := JsValue.undefined, height := chartHeight },
        disclaimerHead := disclaimerHeadText,
        disclaimerLines := [disclaimerLine1, disclaimerLine2] } ∧
    (({ heading := JsValue.undefined,
        chart := { data := JsValue.undefined, height := chartHeight },
        disclaimerHead := disclaimerHeadText,
        disclaimerLines := [disclaimerLine1, disclaimerLine2] } :
          RenderOutput).disclaimerHead = disclaimerHeadText ∧
      ({ heading := JsValue.undefined,
         chart := { data := JsValue.undefined, height := chartHeight },
         disclaimerHead := disclaimerHeadText,
         disclaimerLines := [disclaimerLine1, disclaimerLine2] } :
          RenderOutput).disclaimerLines = [disclaimerLine1, disclaimerLine2]) :=
  ⟨rfl, disclaimer_block_constant ⟨"\x7b\x7d", none⟩ _ rfl⟩

set_option maxRecDepth 8000

/-- Counterexample to C5 as stated: two renders of the source's own example
envelope that differ only in the height prop (400 versus 800) produce equal
output — the height prop is never read, so no pair of renders differing only in
height can differ in output. -/
theorem height_values_give_equal_output :
    ModelTradeRenderer
        ⟨"\x7b\"title\": \"Portfolio Value History\", \"data\": \"[[\\\"Time\\\",\\\"Model 1\\\",\\\"Model 2\\\"],[\\\"2024-01\\\",120,200],[\\\"2024-02\\\",132,154]]\"\x7d",
         some 400⟩ =
      ModelTradeRenderer
        ⟨"\x7b\"title\": \"Portfolio Value History\", \"data\": \"[[\\\"Time\\\",\\\"Model 1\\\",\\\"Model 2\\\"],[\\\"2024-01\\\",120,200],[\\\"2024-02\\\",132,154]]\"\x7d",
         some 800⟩ := rfl

/-- Claim C5 (amended): the height prop is accepted but never read — the source
destructures only `content` from its props — so any two renders with equal
content and arbitrary heights produce identical output, and the chart's height
is the constant "90%" instead. -/
theorem height_prop_never_read (c : String) (h1 h2 : Option Int) :
    ModelTradeRenderer ⟨c, h1⟩ = ModelTradeRenderer ⟨c, h2⟩ := rfl

/-- Claim C6: whenever the component mounts, the chart widget receives exactly
the constant string "90%" as its height argument. -/
theorem chart_height_always_ninety_percent (p : ModelTradeRendererProps)
    (o : RenderOutput) (h : ModelTradeRenderer p = .ok o) :
    o.chart.height = "90%" := by
  unfold ModelTradeRenderer at h
  split at h
  · exact Except.noConfusion h
  · injection h with h'
    subst h'
    rfl

/-- Witness for C6: the empty-object content. -/
theorem chart_height_always_ninety_percent_witness :
    ModelTradeRenderer ⟨"\x7b\x7d", none⟩ = .ok
      { heading := JsValue.undefined,
        chart := { data := JsValue.undefined, height := chartHeight },
        disclaimerHead := disclaimerHeadText,
        disclaimerLines := [disclaimerLine1, disclaimerLine2] } ∧
    ({ heading := JsValue.undefined,
       chart := { data := JsValue.undefined, height := chartHeight },
       disclaimerHead := disclaimerHeadText,
       disclaimerLines := [disclaimerLine1, disclaimerLine2] } :
         RenderOutput).chart.height = "90%" :=
  ⟨rfl, chart_height_always_ninety_percent ⟨"\x7b\x7d", none⟩ _ rfl⟩

/-- Claim C7: for a content whose parsed envelope is an object with no `data`
field, the second parse step receives `undefined`, nothing raises, and the
chart widget receives an `undefined` dataset. -/
theorem missing_data_field_tolerated (c : String) (hgt : Option Int)
    (env : List (String × JsValue))
    (hp : parse c = .obj env) (hd : lookupField env "data" = none) :
    ∃ o : RenderOutput, ModelTradeRenderer ⟨c, hgt⟩ = .ok o ∧
      o.chart.data = JsValue.undefined := by
  have h1 : parse c ≠ JsValue.null := by
    rw [hp]; exact fun h => JsValue.noConfusion h
  have h2 : parse c ≠ JsValue.undefined := by
    rw [hp]; exact fun h => JsValue.noConfusion h
  refine ⟨_, ModelTradeRenderer_ok c hgt h1 h2, ?_⟩
  simp [hp, getField, hd, parseDyn]

/-- Witness for C7: an envelope with only a title. -/
theorem missing_data_field_tolerated_witness :
    parse "\x7b\"title\": \"T\"\x7d" = .obj [("title", JsValue.str "T")] ∧
    lookupField [("title", JsValue.str "T")] "data" = none ∧
    ∃ o : RenderOutput, ModelTradeRenderer ⟨"\x7b\"title\": \"T\"\x7d", none⟩ = .ok o ∧
      o.chart.data = JsValue.undefined :=
  ⟨rfl, rfl,
    missing_data_field_tolerated "\x7b\"title\": \"T\"\x7d" none
      [("title", JsValue.str "T")] rfl rfl⟩

/-- Claim C8: rendering is deterministic — equal props give equal output — and
the memoized default export computes exactly the wrapped component, so
memoization never alters the rendered output. -/
theorem render_deterministic_and_memo_transparent
    (p q : ModelTradeRendererProps) (h : p = q) :
    modelTradeRendererExport p = modelTradeRendererExport q ∧
      modelTradeRendererExport p = ModelTradeRenderer p :=
  ⟨by rw [h], rfl⟩

/-- Witness for C8: two invocations on the same concrete props. -/
theorem render_deterministic_and_memo_transparent_witness :
    modelTradeRendererExport ⟨"\x7b\x7d", none⟩ =
        modelTradeRendererExport ⟨"\x7b\x7d", none⟩ ∧
      modelTradeRendererExport ⟨"\x7b\x7d", none⟩ =
        ModelTradeRenderer ⟨"\x7b\x7d", none⟩ :=
  render_deterministic_and_memo_transparent ⟨"\x7b\x7d", none⟩ ⟨"\x7b\x7d", none⟩ rfl

/-- Claim C9: the `create_time` field is accepted but unused — two contents
whose parsed envelopes agree on every field other than `create_time` render
identically. -/
theorem create_time_field_ignored (c1 c2 : String) (hgt : Option Int)
    (env1 env2 : List (String × JsValue))
    (hp1 : parse c1 = .obj env1) (hp2 : parse c2 = .obj env2)
    (he : eraseField env1 "create_time" = eraseField env2 "create_time") :
    ModelTradeRenderer ⟨c1, hgt⟩ = ModelTradeRenderer ⟨c2, hgt⟩ := by
  have n1 : parse c1 ≠ JsValue.null := by
    rw [hp1]; exact fun h => JsValue.noConfusion h
  have n2 : parse c1 ≠ JsValue.undefined := by
    rw [hp1]; exact fun h => JsValue.noConfusion h
  have m1 : parse c2 ≠ JsValue.null := by
    rw [hp2]; exact fun h => JsValue.noConfusion h
  have m2 : parse c2 ≠ JsValue.undefined := by
    rw [hp2]; exact fun h => JsValue.noConfusion h
  rw [ModelTradeRenderer_ok c1 hgt n1 n2, ModelTradeRenderer_ok c2 hgt m1 m2]
  have ht : lookupField env1 "title" = lookupField env2 "title" := by
    rw [← lookupField_eraseField env1 "title" "create_time" (by decide),
      ← lookupField_eraseField env2 "title" "create_time" (by decide), he]
  have hd : lookupField env1 "data" = lookupField env2 "data" := by
    rw [← lookupField_eraseField env1 "data" "create_time" (by decide),
      ← lookupField_eraseField env2 "data" "create_time" (by decide), he]
  simp [hp1, hp2, getField, ht, hd]

/-- Witness for C9: two envelopes equal except for their `create_time`. -/
theorem create_time_field_ignored_witness :
    parse "\x7b\"title\": \"T\", \"data\": \"[]\", \"create_time\": \"2025-01-01\"\x7d" =
      .obj [("title", JsValue.str "T"), ("data", JsValue.str "[]"),
        ("create_time", JsValue.str "2025-01-01")] ∧
    parse "\x7b\"title\": \"T\", \"data\": \"[]\", \"create_time\": \"2026-02-02\"\x7d" =
      .obj [("title", JsValue.str "T"), ("data", JsValue.str "[]"),
        ("create_time", JsValue.str "2026-02-02")] ∧
    eraseField [("title", JsValue.str "T"), ("data", JsValue.str "[]"),
        ("create_time", JsValue.str "2025-01-01")] "create_time" =
      eraseField [("title", JsValue.str "T"), ("data", JsValue.str "[]"),
        ("create_time", JsValue.str "2026-02-02")] "create_time" ∧
    ModelTradeRenderer
        ⟨"\x7b\"title\": \"T\", \"data\": \"[]\", \"create_time\": \"2025-01-01\"\x7d", none⟩ =
      ModelTradeRenderer
        ⟨"\x7b\"title\": \"T\", \"data\": \"[]\", \"create_time\": \"2026-02-02\"\x7d", none⟩ :=
  ⟨rfl, rfl, rfl,
    create_time_field_ignored
      "\x7b\"title\": \"T\", \"data\": \"[]\", \"create_time\": \"2025-01-01\"\x7d"
      "\x7b\"title\": \"T\", \"data\": \"[]\", \"create_time\": \"2026-02-02\"\x7d"
      none
      [("title", JsValue.str "T"), ("data", JsValue.str "[]"),
        ("create_time", JsValue.str "2025-01-01")]
      [("title", JsValue.str "T"), ("data", JsValue.str "[]"),
        ("create_time", JsValue.str "2026-02-02")]
      rfl rfl rfl⟩

/-- Claim C10: for a content whose parsed envelope is an object with no `title`
field, the component still mounts and the heading renders the `undefined` title
value directly, without transformation. -/
theorem missing_title_renders_undefined_heading (c : String) (hgt : Option Int)
    (env : List (String × JsValue))
    (hp : parse c = .obj env) (ht : lookupField env "title" = none) :
    ∃ o : RenderOutput, ModelTradeRenderer ⟨c, hgt⟩ = .ok o ∧
      o.heading = JsValue.undefined := by
  have h1 : parse c ≠ JsValue.null := by
    rw [hp]; exact fun h => JsValue.noConfusion h
  have h2 : parse c ≠ JsValue.undefined := by
    rw [hp]; exact fun h => JsValue.noConfusion h
  refine ⟨_, ModelTradeRenderer_ok c hgt h1 h2, ?_⟩
  simp [hp, getField, ht]

/-- Witness for C10: a mid-stream envelope that has not reached the title
field. -/
theorem missing_title_renders_undefined_heading_witness :
    parse "\x7b\"data\": \"[]\"\x7d" = .obj [("data", JsValue.str "[]")] ∧
    lookupField [("data", JsValue.str "[]")] "title" = none ∧
    ∃ o : RenderOutput, ModelTradeRenderer ⟨"\x7b\"data\": \"[]\"\x7d", none⟩ = .ok o ∧
      o.heading = JsValue.undefined :=
  ⟨rfl, rfl,
    missing_title_renders_undefined_heading "\x7b\"data\": \"[]\"\x7d" none
      [("data", JsValue.str "[]")] rfl rfl⟩
